import Mathlib

/-!
Verification of zsh-activate-py-environment (src/zsh-activate-py-environment.py)
via a shallow embedding of its pure decision logic in Lean 4.

Modelling conventions:
  * A directory path is a list of path components, deepest component first;
    the empty list is the filesystem root.  Walking to the parent directory
    (Python: os.path.split) is taking the tail; reaching the root is the
    empty list (split returns an empty tail component there).
  * The filesystem is a structure of read-only query functions (isdir,
    listdir, isfile, file contents), matching the read-only traversal the
    script performs.
  * Process exits via sys.exit(code) and prints are modelled as explicit
    result constructors / effect lists; stdout (the primary stream read by
    the parent shell) is distinguished from stderr diagnostics.
  * errno constants keep their Linux numeric values as in the script.
-/

namespace ZshActivatePyEnv

/-! ### Constants (lines 20-47 of the script) -/

def CONDA_TYPE : String := "conda"
def VENV_TYPE : String := "venv"
def POETRY_TYPE : String := "poetry"
def LINKED_TYPE : String := "linked"

def SUPPORTED_ENVIRONMENT_TYPES : List String := [CONDA_TYPE, VENV_TYPE, POETRY_TYPE]

def LINKED_ENV_FILES : List String := [".linked_env"]
def POETRY_FILES : List String := ["poetry.lock", "pyproject.toml"]
def VENV_FILES : List String := ["venv", ".venv"]
def CONDA_FILES : List String := ["environment.yaml", "environment.yml"]

/-- `TYPE_TO_FILES`, as an association list in the scripts insertion order. -/
def TYPE_TO_FILES : List (String × List String) :=
  [(LINKED_TYPE, LINKED_ENV_FILES),
   (POETRY_TYPE, POETRY_FILES),
   (VENV_TYPE, VENV_FILES),
   (CONDA_TYPE, CONDA_FILES)]

/-- `FILE_TO_TYPE`: the inverted dict comprehension.  The marker filenames are
pairwise distinct across kinds, so first-match lookup agrees with the Python
dict (where later duplicates would win). -/
def FILE_TO_TYPE : List (String × String) :=
  (TYPE_TO_FILES.map (fun p => p.2.map (fun f => (f, p.1)))).flatten

/-- errno values used by the script. -/
def EPERM : Nat := 1
def ENOENT : Nat := 2
def EEXIST : Nat := 17
def EINVAL : Nat := 22

/-! ### Environment resolver: `__find_nearest_environment_file` (lines 175-208) -/

/-- A directory path: components deepest-first, `[]` is the root. -/
abbrev DirPath := List String

/-- Read-only filesystem queries the script performs. -/
structure FS where
  isdir : DirPath → Bool
  listdir : DirPath → List String

/-- Outcome of `__find_nearest_environment_file`:
either `sys.exit(code)` via `__print_error_and_fail`, or a
`(type, join(directory, file))` pair (modelled as type, filename, directory),
or Python `None` (no environment found). -/
inductive ResolveResult where
  | err (code : Nat)
  | found (type_ : String) (environment_file : String) (directory : DirPath)
  | noEnv
deriving DecidableEq

/-- Inner loop: first filename of the candidate list present in the
directory listing. -/
def scanFiles (directory_content : List String) : List String → Option String
  | [] => none
  | environment_file :: rest =>
    if environment_file ∈ directory_content then some environment_file
    else scanFiles directory_content rest

/-- The nested `for` loops of lines 199-202: iterate the kinds in `priority`
order, within one kind the candidate filenames in their fixed order, and
return `(FILE_TO_TYPE[file], file)` for the first hit. -/
def scanLevel (directory_content : List String) : List String → Option (String × String)
  | [] => none
  | type_ :: rest =>
    match scanFiles directory_content ((TYPE_TO_FILES.lookup type_).getD []) with
    | some environment_file =>
      some ((FILE_TO_TYPE.lookup environment_file).getD "", environment_file)
    | none => scanLevel directory_content rest

/-- `__find_nearest_environment_file(directory, priority)` (lines 175-208).
Validates `priority` and `directory` (EINVAL exit on violation), scans the
current level, and otherwise recurses into the parent until the root is
reached (empty tail component of `os.path.split`). -/
def __find_nearest_environment_file (fs : FS) (priority : List String)
    (directory : DirPath) : ResolveResult :=
  if priority.any (fun type_ => (TYPE_TO_FILES.lookup type_).isNone) then
    ResolveResult.err EINVAL
  else if !(fs.isdir directory) then
    ResolveResult.err EINVAL
  else
    match scanLevel (fs.listdir directory) priority, directory with
    | some (type_, environment_file), _ =>
      ResolveResult.found type_ environment_file directory
    | none, [] => ResolveResult.noEnv
    | none, _ :: parent_directory =>
      __find_nearest_environment_file fs priority parent_directory
termination_by directory.length
decreasing_by simp

/-- Candidate marker filenames of a kind (empty for unsupported kinds). -/
def filesOf (type_ : String) : List String := (TYPE_TO_FILES.lookup type_).getD []

/-! ### `deactivate` (lines 101-110)

`environ.get(key, "")` is modelled by passing the two ambient variables as
strings, the empty string meaning unset.  The result is the list of commands
printed on stdout by `__return_command`. -/

def deactivate (VIRTUAL_ENV CONDA_DEFAULT_ENV : String) : List String :=
  let conda_environment_name := CONDA_DEFAULT_ENV
  if VIRTUAL_ENV ≠ "" then ["deactivate"]
  else if conda_environment_name ≠ "" ∧ conda_environment_name ≠ "base" then
    ["conda deactivate"]
  else []

/-! ### `link` (lines 113-128)

The current working directory is modelled as an association list from
filename to file content (the filesystem is a map, so a fresh entry is simply
prepended).  `os.path.abspath` is a stdlib function outside the script; it is
passed in as the function `abspath`.  The result pairs an optional exit code
(`some code` when `__print_error_and_fail` terminates the process) with the
resulting directory contents. -/

def link (abspath : String → String) (cwd_files : List (String × String))
    (environment_type name_or_path : String) : Option Nat × List (String × String) :=
  if LINKED_ENV_FILES.any (fun f => f ∈ cwd_files.map Prod.fst) then
    (some EEXIST, cwd_files)
  else if environment_type = VENV_TYPE then
    (none, (LINKED_ENV_FILES.get ⟨0, by decide⟩,
            environment_type ++ ";" ++ abspath name_or_path) :: cwd_files)
  else if environment_type = CONDA_TYPE then
    (none, (LINKED_ENV_FILES.get ⟨0, by decide⟩,
            environment_type ++ ";" ++ name_or_path) :: cwd_files)
  else
    (none, cwd_files)

/-! ### `__parse_linked_environment_file` (lines 233-257) -/

/-- Outcome of the link-file read: an exit code from `__print_error_and_fail`,
or the `(environment_type.strip(), environment_path_or_name.strip())` pair. -/
inductive ParseResult where
  | err (code : Nat)
  | ok (environment_type : String) (environment_path_or_name : String)
deriving DecidableEq

/-- Python `\s` / `str.strip` whitespace on ASCII input. -/
def isPySpace (c : Char) : Bool :=
  c = ' ' || c = '\t' || c = '\n' || c = '\r' || c = '\x0b' || c = '\x0c'

/-- Accumulator loop for `pySplitSemi`. -/
def pySplitSemiAux : List Char → List Char → List (List Char)
  | [], acc => [acc.reverse]
  | c :: cs, acc =>
    if c = ';' then acc.reverse :: pySplitSemiAux cs []
    else pySplitSemiAux cs (c :: acc)

/-- Python `content.split(";")`: splits at every semicolon, keeping empty
parts; the empty string splits to `[""]`. -/
def pySplitSemi (content : String) : List String :=
  (pySplitSemiAux content.toList []).map String.mk

/-- Python `str.strip()` (ASCII whitespace). -/
def pyStrip (s : String) : String :=
  String.mk (((s.toList.dropWhile isPySpace).reverse.dropWhile isPySpace).reverse)

/-- `__parse_linked_environment_file(path)`, with the file modelled by its
existence flag and its full content.  Python
`a, b = content.split(";")` succeeds exactly when the split has two parts,
and raises otherwise, landing in the bare `except` (EPERM).  Note the
supported-type membership test runs on the raw field, the `.strip()` happens
only on return. -/
def __parse_linked_environment_file (exists_ : Bool) (content : String) : ParseResult :=
  if !exists_ then ParseResult.err ENOENT
  else
    match pySplitSemi content with
    | [environment_type, environment_path_or_name] =>
      if environment_type ∉ SUPPORTED_ENVIRONMENT_TYPES then ParseResult.err EINVAL
      else ParseResult.ok (pyStrip environment_type) (pyStrip environment_path_or_name)
    | _ => ParseResult.err EPERM

/-! ### `__parse_conda_env_file_and_get_name` (lines 211-230), regex fallback

Only the regex fallback branch is modelled (the `yaml` module absent), which
is the path the extractor claims address.  `YAML_ENV_NAME_REGEX` is
`^\s*name:\s*([^\/\s:#]*)` used with `re.match` (anchored at the start of
each line): greedy leading whitespace, the literal `name:`, greedy
whitespace, then a capture of the longest run of characters that are not
`/`, whitespace, `:` or `#`.  Since whitespace never begins `name:` and the
capture class excludes whitespace, the greedy scan needs no backtracking and
is exactly dropWhile / takeWhile. -/

/-- The character class `[^\/\s:#]` complemented: characters the captured
conda environment name must stop at. -/
def isForbiddenNameChar (c : Char) : Bool :=
  c = '/' || isPySpace c || c = ':' || c = '#'

/-- `re.match(YAML_ENV_NAME_REGEX, line)`: `some captureGroup1` when the
anchored pattern matches, `none` otherwise. -/
def yamlEnvNameMatch (line : String) : Option String :=
  let after_leading_ws := line.toList.dropWhile isPySpace
  if after_leading_ws.take 5 = "name:".toList then
    let after_colon_ws := (after_leading_ws.drop 5).dropWhile isPySpace
    some (String.mk (after_colon_ws.takeWhile (fun c => !isForbiddenNameChar c)))
  else none

/-- The `for line in file` loop of lines 218-221: group 1 of the first
matching line. -/
def firstNameMatch : List String → Option String
  | [] => none
  | line :: rest =>
    match yamlEnvNameMatch line with
    | some name => some name
    | none => firstNameMatch rest

/-- `__parse_conda_env_file_and_get_name(environment_file)` on the regex
fallback path, with the file given as its list of lines.  When no line
matches, the function raises into the bare `except` and
`__print_error_and_fail` exits with EPERM after printing a message naming the
offending file.  The error carries `(exit code, offending file path)`. -/
def __parse_conda_env_file_and_get_name (environment_file : String)
    (lines : List String) : Except (Nat × String) String :=
  match firstNameMatch lines with
  | some name => Except.ok name
  | none => Except.error (EPERM, environment_file)

/-! ### `__handle_environment_file` (lines 275-304) -/

/-- Observable effects of the dispatcher, in program order:
stdout text (the primary stream the parent shell evaluates), subprocess
invocations (`run([...])`), stderr diagnostics (`__print_information` and
friends, payload reduced to a tag and the varying argument), and
`sys.exit(code)`. -/
inductive Effect where
  | stdout (command : String)
  | runProc (args : List String)
  | info (tag : String) (payload : String)
  | exitWith (code : Nat)
deriving DecidableEq

/-- Ambient system state the dispatcher consults: `shutil.which`
availability, `os.path.isfile`, a file read as one string (for the link
file), and a file read as lines (for the conda environment file). -/
structure Env where
  which : String → Bool
  isfile : String → Bool
  readFile : String → String
  fileLines : String → List String

/-- The non-linked arms of `__handle_environment_file` (lines 281-304):
poetry, venv, conda, and the unknown-type fallthrough, in the scripts
branch order.  The conda arm passes `TYPE_TO_FILES` (the whole dict) to
`__print_activation_message`; the payload records that verbatim quirk as a
tag. -/
def __handle_environment_type (env : Env) (type_ : String)
    (environment_path_file_or_name : String) : List Effect :=
  if type_ = POETRY_TYPE then
    if env.which POETRY_TYPE then
      [Effect.info "activation" type_, Effect.runProc ["poetry", "shell"]]
    else [Effect.info "dependency-missing" POETRY_TYPE]
  else if type_ = VENV_TYPE then
    [Effect.info "activation" type_,
     Effect.runProc ["source", environment_path_file_or_name ++ "/bin/activate"]]
  else if type_ = CONDA_TYPE then
    if env.which CONDA_TYPE then
      if env.isfile environment_path_file_or_name then
        match __parse_conda_env_file_and_get_name environment_path_file_or_name
            (env.fileLines environment_path_file_or_name) with
        | Except.ok name =>
          [Effect.info "activation" "TYPE_TO_FILES",
           Effect.runProc ["conda", "activate", name]]
        | Except.error (code, path) =>
          [Effect.info "malformed-environment-file" path, Effect.exitWith code]
      else
        [Effect.info "activation" "TYPE_TO_FILES",
         Effect.runProc ["conda", "activate", environment_path_file_or_name]]
    else [Effect.info "dependency-missing" CONDA_TYPE]
  else
    [Effect.info "unknown-environment-type" type_, Effect.exitWith 0]

/-- `__handle_environment_file(type_, environment_path_file_or_name)`.
The `linked` arm reads the link record and recurses (line 279); since the
codec only ever returns a type in `SUPPORTED_ENVIRONMENT_TYPES` (which
excludes `linked`), the recursive call never reaches the `linked` arm again,
so the recursion is unfolded once into `__handle_environment_type`. -/
def __handle_environment_file (env : Env) (type_ : String)
    (environment_path_file_or_name : String) : List Effect :=
  if type_ = LINKED_TYPE then
    match __parse_linked_environment_file (env.isfile environment_path_file_or_name)
        (env.readFile environment_path_file_or_name) with
    | ParseResult.ok environment_type environment_path_or_name =>
      __handle_environment_type env environment_type environment_path_or_name
    | ParseResult.err code =>
      [Effect.info "linked-file-error" environment_path_file_or_name,
       Effect.exitWith code]
  else __handle_environment_type env type_ environment_path_file_or_name

/-! ### Helper lemmas -/

lemma scanFiles_mem_of_some (directory_content l : List String) (g : String)
    (h : scanFiles directory_content l = some g) :
    g ∈ l ∧ g ∈ directory_content := by
  induction l with
  | nil => simp [scanFiles] at h
  | cons a t ih =>
    by_cases ha : a ∈ directory_content
    · simp [scanFiles, ha] at h
      subst h
      exact ⟨List.mem_cons_self a t, ha⟩
    · simp [scanFiles, ha] at h
      obtain ⟨h1, h2⟩ := ih h
      exact ⟨List.mem_cons_of_mem a h1, h2⟩

lemma scanFiles_isSome (directory_content l : List String) (f : String)
    (hf : f ∈ l) (hc : f ∈ directory_content) :
    ∃ g, scanFiles directory_content l = some g := by
  induction l with
  | nil => simp at hf
  | cons a t ih =>
    by_cases ha : a ∈ directory_content
    · exact ⟨a, by simp [scanFiles, ha]⟩
    · rcases List.mem_cons.mp hf with rfl | hft
      · exact absurd hc ha
      · obtain ⟨g, hg⟩ := ih hft
        exact ⟨g, by simp [scanFiles, ha, hg]⟩

lemma scanFiles_eq_none (directory_content l : List String)
    (h : ∀ f ∈ l, f ∉ directory_content) :
    scanFiles directory_content l = none := by
  induction l with
  | nil => rfl
  | cons a t ih =>
    have ha : a ∉ directory_content := h a (List.mem_cons_self a t)
    simp only [scanFiles, ha, if_neg]
    exact ih (fun f hf => h f (List.mem_cons_of_mem a hf))

lemma lookup_TYPE_TO_FILES_cases (type_ : String) (l : List String)
    (h : TYPE_TO_FILES.lookup type_ = some l) :
    (type_ = LINKED_TYPE ∧ l = LINKED_ENV_FILES) ∨
    (type_ = POETRY_TYPE ∧ l = POETRY_FILES) ∨
    (type_ = VENV_TYPE ∧ l = VENV_FILES) ∨
    (type_ = CONDA_TYPE ∧ l = CONDA_FILES) := by
  simp only [TYPE_TO_FILES, List.lookup] at h
  repeat' split at h
  all_goals simp_all [beq_iff_eq]

/-- A marker filename registered for a kind maps back to that kind in the
inverted dictionary (the filename sets are pairwise disjoint). -/
lemma FILE_TO_TYPE_of_mem (type_ : String) (l : List String) (f : String)
    (h : TYPE_TO_FILES.lookup type_ = some l) (hf : f ∈ l) :
    FILE_TO_TYPE.lookup f = some type_ := by
  rcases lookup_TYPE_TO_FILES_cases type_ l h with ⟨rfl, rfl⟩ | ⟨rfl, rfl⟩ | ⟨rfl, rfl⟩ | ⟨rfl, rfl⟩ <;>
    fin_cases hf <;> decide

/-- The level scan hits at a priority index no later than that of any kind
with a marker present, and the hit is a genuine registered marker of the
returned kind. -/
lemma scanLevel_mem (directory_content : List String) :
    ∀ (priority : List String) (i : ℕ) (K1 : String),
      priority.get? i = some K1 →
      (∀ t ∈ priority, (TYPE_TO_FILES.lookup t).isSome) →
      (∃ f ∈ filesOf K1, f ∈ directory_content) →
      ∃ k f i_k, scanLevel directory_content priority = some (k, f) ∧
        i_k ≤ i ∧ priority.get? i_k = some k ∧ f ∈ filesOf k ∧ f ∈ directory_content := by
  intro priority
  induction priority with
  | nil => intro i K1 hi; simp at hi
  | cons t rest ih =>
    intro i K1 hi hvalid hmark
    rcases hscan : scanFiles directory_content ((TYPE_TO_FILES.lookup t).getD []) with _ | g
    · cases i with
      | zero =>
        simp only [List.get?] at hi
        injection hi with hi
        subst hi
        obtain ⟨f, hf, hc⟩ := hmark
        obtain ⟨g, hg⟩ := scanFiles_isSome directory_content _ f hf hc
        simp only [filesOf] at hg
        rw [hg] at hscan
        cases hscan
      | succ n =>
        have hvalid' : ∀ u ∈ rest, (TYPE_TO_FILES.lookup u).isSome :=
          fun u hu => hvalid u (List.mem_cons_of_mem t hu)
        obtain ⟨k, f, i_k, h1, h2, h3, h4, h5⟩ := ih n K1 hi hvalid' hmark
        refine ⟨k, f, i_k + 1, ?_, Nat.succ_le_succ h2, h3, h4, h5⟩
        simp only [scanLevel, hscan]
        exact h1
    · have hts : (TYPE_TO_FILES.lookup t).isSome := hvalid t (List.mem_cons_self t rest)
      obtain ⟨lt, hlt⟩ := Option.isSome_iff_exists.mp hts
      have hgl : g ∈ (TYPE_TO_FILES.lookup t).getD [] ∧ g ∈ directory_content :=
        scanFiles_mem_of_some directory_content _ g hscan
      rw [hlt] at hgl
      have hft : FILE_TO_TYPE.lookup g = some t := FILE_TO_TYPE_of_mem t lt g hlt hgl.1
      refine ⟨t, g, 0, ?_, Nat.zero_le i, rfl, ?_, hgl.2⟩
      · simp only [scanLevel, hscan, hft, Option.getD_some]
      · simp only [filesOf, hlt, Option.getD_some]
        exact hgl.1

lemma scanLevel_eq_none (directory_content : List String) :
    ∀ priority : List String,
      (∀ t ∈ priority, ∀ f ∈ filesOf t, f ∉ directory_content) →
      scanLevel directory_content priority = none := by
  intro priority
  induction priority with
  | nil => intro _; rfl
  | cons t rest ih =>
    intro h
    have ht : scanFiles directory_content ((TYPE_TO_FILES.lookup t).getD []) = none :=
      scanFiles_eq_none _ _ (h t (List.mem_cons_self t rest))
    simp only [scanLevel, ht]
    exact ih (fun u hu => h u (List.mem_cons_of_mem t hu))

lemma any_isNone_eq_false (priority : List String)
    (hvalid : ∀ t ∈ priority, (TYPE_TO_FILES.lookup t).isSome) :
    priority.any (fun type_ => (TYPE_TO_FILES.lookup type_).isNone) = false := by
  rw [List.any_eq_false]
  intro t ht
  have := hvalid t ht
  simp only [Option.isNone_iff_eq_none]
  intro hnone
  rw [hnone] at this
  cases this

/-! ### Claim theorems -/

/-- C3: the deactivation decision checks the virtualenv/poetry indicator
first and emits exactly `deactivate` when it is set (never `conda
deactivate`, even when the conda indicator is also set); otherwise it emits
exactly `conda deactivate` when the conda environment name is set and is not
the literal `base`; otherwise it emits nothing. -/
theorem C3_deactivate_decision (VIRTUAL_ENV CONDA_DEFAULT_ENV : String) :
    (VIRTUAL_ENV ≠ "" → deactivate VIRTUAL_ENV CONDA_DEFAULT_ENV = ["deactivate"]) ∧
    (VIRTUAL_ENV = "" → CONDA_DEFAULT_ENV ≠ "" → CONDA_DEFAULT_ENV ≠ "base" →
      deactivate VIRTUAL_ENV CONDA_DEFAULT_ENV = ["conda deactivate"]) ∧
    (VIRTUAL_ENV = "" → (CONDA_DEFAULT_ENV = "" ∨ CONDA_DEFAULT_ENV = "base") →
      deactivate VIRTUAL_ENV CONDA_DEFAULT_ENV = []) := by
  refine ⟨fun hv => by simp [deactivate, hv], fun hv hc hcb => ?_, fun hv hc => ?_⟩
  · simp [deactivate, hv, hc, hcb]
  · rcases hc with h | h <;> simp [deactivate, hv, h]

/-- Witness for C3 at the two spec scenarios: venv indicator set with conda
indicator `base` emits only `deactivate`; no venv indicator with conda
indicator `base` emits nothing. -/
theorem C3_deactivate_decision_witness :
    deactivate "/some/venv" "base" = ["deactivate"] ∧ deactivate "" "base" = [] :=
  ⟨(C3_deactivate_decision "/some/venv" "base").1 (by decide),
   (C3_deactivate_decision "" "base").2.2 rfl (Or.inr rfl)⟩

/-- C4: round-trip of the link-file codec — on an unlinked directory,
`link(venv, "/abs/path")` writes `.linked_env` with content
`venv;/abs/path` (the locator canonicalized by `abspath`, the identity on
this already-absolute normalized path), and reading that content back
returns exactly the pair `(venv, "/abs/path")`. -/
theorem C4_link_roundtrip (abspath : String → String)
    (cwd_files : List (String × String))
    (hunlinked : ".linked_env" ∉ cwd_files.map Prod.fst)
    (habs : abspath "/abs/path" = "/abs/path") :
    link abspath cwd_files VENV_TYPE "/abs/path" =
      (none, (".linked_env", "venv;/abs/path") :: cwd_files) ∧
    __parse_linked_environment_file true "venv;/abs/path" =
      ParseResult.ok VENV_TYPE "/abs/path" := by
  constructor
  · simp only [link, LINKED_ENV_FILES, habs]
    rw [if_neg]
    · rfl
    · simp [hunlinked]
  · decide

/-- Witness for C4 on the empty directory with the identity as `abspath`. -/
theorem C4_link_roundtrip_witness :
    link id [] VENV_TYPE "/abs/path" =
      (none, [(".linked_env", "venv;/abs/path")]) ∧
    __parse_linked_environment_file true "venv;/abs/path" =
      ParseResult.ok VENV_TYPE "/abs/path" :=
  C4_link_roundtrip id [] (by simp) rfl

/-- C5 counterexample: the content `" venv;/p"` splits into exactly two
fields and its first field is `venv` after trimming — supported — yet the
read fails (with EINVAL), because the code tests the raw untrimmed field;
the claim as stated requires this input to succeed with the trimmed pair. -/
theorem C5_read_counterexample :
    pySplitSemi " venv;/p" = [" venv", "/p"] ∧
    pyStrip " venv" = "venv" ∧
    "venv" ∈ SUPPORTED_ENVIRONMENT_TYPES ∧
    __parse_linked_environment_file true " venv;/p" = ParseResult.err EINVAL := by
  decide

/-- C5 amended: the read fails with NotFound (ENOENT) when the file does not
exist; fails when the content does not split into exactly two
semicolon-delimited fields (EPERM, via the bare except); fails when the
first field, taken raw without any trimming, is not one of
{conda, venv, poetry} (EINVAL) — in particular a record naming `linked`
fails; and on success returns the trimmed (kind, locator) pair. -/
theorem C5_read_amended (content : String) :
    (__parse_linked_environment_file false content = ParseResult.err ENOENT) ∧
    ((pySplitSemi content).length ≠ 2 →
      __parse_linked_environment_file true content = ParseResult.err EPERM) ∧
    (∀ environment_type environment_path_or_name,
      pySplitSemi content = [environment_type, environment_path_or_name] →
      environment_type ∉ SUPPORTED_ENVIRONMENT_TYPES →
      __parse_linked_environment_file true content = ParseResult.err EINVAL) ∧
    (∀ environment_type environment_path_or_name,
      pySplitSemi content = [environment_type, environment_path_or_name] →
      environment_type ∈ SUPPORTED_ENVIRONMENT_TYPES →
      __parse_linked_environment_file true content =
        ParseResult.ok (pyStrip environment_type) (pyStrip environment_path_or_name)) ∧
    LINKED_TYPE ∉ SUPPORTED_ENVIRONMENT_TYPES := by
  refine ⟨by simp [__parse_linked_environment_file], ?_, ?_, ?_, by decide⟩
  · intro hlen
    rcases h : pySplitSemi content with _ | ⟨a, rest⟩
    · simp [__parse_linked_environment_file, h]
    · rcases rest with _ | ⟨b, rest2⟩
      · simp [__parse_linked_environment_file, h]
      · rcases rest2 with _ | ⟨c, rest3⟩
        · rw [h] at hlen; simp at hlen
        · simp [__parse_linked_environment_file, h]
  · intro a b hs hnot
    simp [__parse_linked_environment_file, hs, hnot]
  · intro a b hs hmem
    simp [__parse_linked_environment_file, hs, hmem]

/-- Witness for C5 amended: a record naming `linked` is rejected. -/
theorem C5_read_amended_witness :
    __parse_linked_environment_file true "linked;x" = ParseResult.err EINVAL :=
  (C5_read_amended "linked;x").2.2.1 "linked" "x" (by decide) (by decide)

/-- C6: `link` on an already-linked directory fails with EEXIST and the
directory contents — in particular the existing link file — are returned
unchanged: the existence test against the fixed marker filename runs before
any write. -/
theorem C6_link_already_linked (abspath : String → String)
    (cwd_files : List (String × String)) (environment_type name_or_path : String)
    (hlinked : ".linked_env" ∈ cwd_files.map Prod.fst) :
    link abspath cwd_files environment_type name_or_path = (some EEXIST, cwd_files) := by
  simp [link, LINKED_ENV_FILES, hlinked]

/-- Witness for C6: relinking a directory whose `.linked_env` holds an old
record fails with EEXIST and keeps the old record. -/
theorem C6_link_already_linked_witness :
    link id [(".linked_env", "venv;/old")] CONDA_TYPE "myenv" =
      (some EEXIST, [(".linked_env", "venv;/old")]) :=
  C6_link_already_linked id _ _ _ (by decide)

/-- C7: on the regex fallback path, a file containing exactly
`name: my-env-1` yields `my-env-1`; a file containing `name: bad/name#tag`
yields `bad` (the capture stops at the first forbidden character); and when
no line matches the pattern the extractor fails with EPERM carrying the
offending file path. -/
theorem C7_conda_name_extractor (environment_file : String) :
    __parse_conda_env_file_and_get_name environment_file ["name: my-env-1"] =
      Except.ok "my-env-1" ∧
    __parse_conda_env_file_and_get_name environment_file ["name: bad/name#tag"] =
      Except.ok "bad" ∧
    (∀ lines : List String, (∀ l ∈ lines, yamlEnvNameMatch l = none) →
      __parse_conda_env_file_and_get_name environment_file lines =
        Except.error (EPERM, environment_file)) := by
  refine ⟨rfl, rfl, ?_⟩
  intro lines h
  have hnone : firstNameMatch lines = none := by
    induction lines with
    | nil => rfl
    | cons l ls ih =>
      have h1 : yamlEnvNameMatch l = none := h l (List.mem_cons_self l ls)
      simp only [firstNameMatch, h1]
      exact ih (fun x hx => h x (List.mem_cons_of_mem l hx))
  simp [__parse_conda_env_file_and_get_name, hnone]

/-- Witness for C7 on a file with a single non-matching line. -/
theorem C7_conda_name_extractor_witness :
    __parse_conda_env_file_and_get_name "environment.yml" ["dependencies:"] =
      Except.error (EPERM, "environment.yml") :=
  (C7_conda_name_extractor "environment.yml").2.2 ["dependencies:"] (by decide)

/-- C10: the capture group of the name pattern admits zero characters, so a
line `name:` alone, or one whose value starts with a forbidden character
such as `name: /foo`, matches with an empty capture — and a file whose first
matching line has such an empty value makes the extractor return the empty
string instead of failing. -/
theorem C10_empty_capture (environment_file : String) :
    yamlEnvNameMatch "name:" = some "" ∧
    yamlEnvNameMatch "name: /foo" = some "" ∧
    (∀ (pre : List String) (line : String) (rest : List String),
      (∀ l ∈ pre, yamlEnvNameMatch l = none) →
      yamlEnvNameMatch line = some "" →
      __parse_conda_env_file_and_get_name environment_file (pre ++ line :: rest) =
        Except.ok "") := by
  refine ⟨rfl, rfl, ?_⟩
  intro pre line rest hpre hmatch
  have hfirst : firstNameMatch (pre ++ line :: rest) = some "" := by
    induction pre with
    | nil => simp [firstNameMatch, hmatch]
    | cons p ps ih =>
      have hp : yamlEnvNameMatch p = none := hpre p (List.mem_cons_self p ps)
      simp only [List.cons_append, firstNameMatch, hp]
      exact ih (fun x hx => hpre x (List.mem_cons_of_mem p hx))
  simp [__parse_conda_env_file_and_get_name, hfirst]

/-- Witness for C10 on the one-line file `name:`. -/
theorem C10_empty_capture_witness :
    __parse_conda_env_file_and_get_name "environment.yaml" ["name:"] =
      Except.ok "" :=
  (C10_empty_capture "environment.yaml").2.2 [] "name:" [] (by simp) (by decide)

/-- C1: when the only kinds of `priority` with markers in directory `D` are
`K1` (earlier in `priority`) and `K2` (later), the resolver returns `K1`'s
match found in `D` itself, never `K2`'s — and, since the result is located
in `D`, any marker that exists only in an ancestor of `D` is irrelevant:
kind priority dominates filename order, which dominates directory depth. -/
theorem C1_priority_dominance (fs : FS) (priority : List String)
    (directory : DirPath) (K1 K2 : String) (i j : ℕ)
    (hvalid : ∀ t ∈ priority, (TYPE_TO_FILES.lookup t).isSome)
    (hnodup : priority.Nodup)
    (hdir : fs.isdir directory = true)
    (hi : priority.get? i = some K1) (hj : priority.get? j = some K2)
    (hij : i < j)
    (hK1 : ∃ f ∈ filesOf K1, f ∈ fs.listdir directory)
    (hK2 : ∃ f ∈ filesOf K2, f ∈ fs.listdir directory)
    (honly : ∀ t ∈ priority, (∃ f ∈ filesOf t, f ∈ fs.listdir directory) →
      t = K1 ∨ t = K2) :
    ∃ f, f ∈ filesOf K1 ∧ f ∈ fs.listdir directory ∧
      __find_nearest_environment_file fs priority directory =
        ResolveResult.found K1 f directory := by
  obtain ⟨k, f, i_k, hscan, hik, hget, hfk, hfc⟩ :=
    scanLevel_mem (fs.listdir directory) priority i K1 hi hvalid hK1
  have hkmem : k ∈ priority := List.get?_mem hget
  have hk1 : k = K1 := by
    rcases honly k hkmem ⟨f, hfk, hfc⟩ with h | h
    · exact h
    · exfalso
      subst h
      have hkj : i_k = j := by
        obtain ⟨hlen_i, -⟩ := List.get?_eq_some.mp hget
        exact List.get?_inj hlen_i hnodup (by rw [hget, hj])
      omega
  subst hk1
  refine ⟨f, hfk, hfc, ?_⟩
  rw [__find_nearest_environment_file.eq_def, any_isNone_eq_false priority hvalid,
    hdir, hscan]
  rfl

/-- Concrete filesystem for the C1 witness: the root contains nothing, the
directory `/proj` contains a conda marker and a venv marker. -/
def fs0 : FS where
  isdir := fun d => d = [] || d = ["proj"]
  listdir := fun d => if d = ["proj"] then ["environment.yaml", "venv"] else []

/-- Witness for C1: with the default priority, a directory holding both a
conda marker and a venv marker resolves to the conda marker in that
directory. -/
theorem C1_priority_dominance_witness :
    __find_nearest_environment_file fs0
        [CONDA_TYPE, LINKED_TYPE, POETRY_TYPE, VENV_TYPE] ["proj"] =
      ResolveResult.found CONDA_TYPE "environment.yaml" ["proj"] := by
  obtain ⟨f, hf, hc, heq⟩ :=
    C1_priority_dominance fs0 [CONDA_TYPE, LINKED_TYPE, POETRY_TYPE, VENV_TYPE]
      ["proj"] CONDA_TYPE VENV_TYPE 0 3 (by decide) (by decide) (by decide)
      rfl rfl (by decide)
      ⟨"environment.yaml", by decide, by decide⟩
      ⟨"venv", by decide, by decide⟩
      (by decide)
  have hcf : filesOf CONDA_TYPE = ["environment.yaml", "environment.yml"] := rfl
  rw [hcf] at hf
  fin_cases hf
  · exact heq
  · exact absurd hc (by decide)

/-- C2: for a valid priority list, when a directory and all of its ancestors
up to the filesystem root contain no marker file of any kind, the resolver
walks the whole ancestor chain and returns "no environment found" — not an
error.  (Determinism and termination hold by construction: the embedding is
a total function whose recursion is bounded by the depth of `directory`.) -/
theorem C2_resolver_no_marker (fs : FS) (priority : List String)
    (directory : DirPath)
    (hvalid : ∀ t ∈ priority, (TYPE_TO_FILES.lookup t).isSome)
    (hdirs : ∀ ancestor : DirPath, ancestor.IsSuffix directory →
      fs.isdir ancestor = true)
    (hnomark : ∀ ancestor : DirPath, ancestor.IsSuffix directory →
      ∀ t ∈ priority, ∀ f ∈ filesOf t, f ∉ fs.listdir ancestor) :
    __find_nearest_environment_file fs priority directory = ResolveResult.noEnv := by
  induction directory with
  | nil =>
    have hscan : scanLevel (fs.listdir []) priority = none :=
      scanLevel_eq_none _ priority (hnomark [] (List.suffix_refl []))
    rw [__find_nearest_environment_file.eq_def, any_isNone_eq_false priority hvalid,
      hdirs [] (List.suffix_refl []), hscan]
    rfl
  | cons c parent ih =>
    have hscan : scanLevel (fs.listdir (c :: parent)) priority = none :=
      scanLevel_eq_none _ priority (hnomark (c :: parent) (List.suffix_refl _))
    rw [__find_nearest_environment_file.eq_def, any_isNone_eq_false priority hvalid,
      hdirs (c :: parent) (List.suffix_refl _), hscan]
    show __find_nearest_environment_file fs priority parent = ResolveResult.noEnv
    exact ih
      (fun a ha => hdirs a (ha.trans (List.suffix_cons c parent)))
      (fun a ha => hnomark a (ha.trans (List.suffix_cons c parent)))

/-- Filesystem for the C2 witness: every directory exists and is empty. -/
def fs_empty : FS where
  isdir := fun _ => true
  listdir := fun _ => []

/-- Witness for C2: a two-level-deep directory with no marker anywhere
resolves to "no environment found" under the default priority. -/
theorem C2_resolver_no_marker_witness :
    __find_nearest_environment_file fs_empty
        [CONDA_TYPE, LINKED_TYPE, POETRY_TYPE, VENV_TYPE] ["b", "a"] =
      ResolveResult.noEnv :=
  C2_resolver_no_marker fs_empty _ _ (by decide) (fun _ _ => rfl)
    (fun _ _ _ _ f _ => List.not_mem_nil f)

/-- Ambient system state for the dispatcher counterexamples: every external
tool available, no path is a file, all file reads empty. -/
def env0 : Env where
  which := fun _ => true
  isfile := fun _ => false
  readFile := fun _ => ""
  fileLines := fun _ => []

/-- C8 counterexample: dispatching kind `venv` with locator `/x` emits
nothing on the primary output stream — the full effect list contains no
stdout write at all; instead the script spawns
`run(["source", "/x/bin/activate"])` as a subprocess. -/
theorem C8_venv_counterexample :
    Effect.stdout "source /x/bin/activate" ∉
      __handle_environment_file env0 VENV_TYPE "/x" ∧
    __handle_environment_file env0 VENV_TYPE "/x" =
      [Effect.info "activation" VENV_TYPE,
       Effect.runProc ["source", "/x/bin/activate"]] := by
  decide

/-- C8 amended: for every locator and every ambient state, dispatch on kind
`venv` performs no existence check and directly invokes
`source <locator>/bin/activate` as a subprocess (after the stderr activation
notice), rather than emitting the command text on the primary output
stream. -/
theorem C8_venv_dispatch (env : Env) (environment_path_file_or_name : String) :
    __handle_environment_file env VENV_TYPE environment_path_file_or_name =
      [Effect.info "activation" VENV_TYPE,
       Effect.runProc ["source", environment_path_file_or_name ++ "/bin/activate"]] :=
  rfl

/-- C9: a kind outside {conda, venv, poetry, linked} reaching dispatch hits
the fatal fallthrough — a user-facing diagnostic followed by `sys.exit(0)`:
the script passes `error_code=0`, so the abort carries exit status zero,
although it is an error path. -/
theorem C9_unknown_type_exit_code :
    __handle_environment_file env0 "foo" "some-locator" =
      [Effect.info "unknown-environment-type" "foo", Effect.exitWith 0] := by
  decide

end ZshActivatePyEnv
